import Mathlib

/-!
Verification of the Phoenix client-side transport engine
(`pkg/transport`, Go) against its natural-language specification.

The Go code is shallowly embedded: pure branching logic becomes Lean
functions over a `ClientConfig` record; the stateful circuit breaker
becomes explicit state passing over a `ClientState` record; external
library calls (x509 parsing, private-key loading, certificate
generation) become function parameters; `log.Printf` output that the
spec makes observable is returned as a list of strings.
-/

namespace Phoenix

/-- Client configuration (`pkg/config/client_config.go`), restricted to the
fields the transport engine reads.  All fields default to the Go zero value
(the empty string). -/
structure ClientConfig where
  remoteAddr : String := ""
  dialAddr : String := ""
  authToken : String := ""
  privateKeyPath : String := ""
  serverPublicKey : String := ""
  tlsMode : String := ""
  fingerprint : String := ""
deriving DecidableEq

/-- The five derived security modes of spec section 3. -/
inductive SecurityMode where
  | CLEARTEXT_H2C
  | SYSTEM_TLS
  | INSECURE_TLS
  | PINNED_ONEWAY_TLS
  | PINNED_MUTUAL_TLS
deriving DecidableEq

/-- The security mode actually realised by `createHTTPClient`
(transport/client.go lines 154-253): the branch cascade is
`tls_mode == "system"`, then `tls_mode == "insecure"`, then the pinned
branch when a private key path or a server public key is set, else
cleartext h2c.  Within the pinned branch a client certificate is
configured exactly when `PrivateKeyPath` is set and pinning is active
exactly when `ServerPublicKey` is set, which is what distinguishes
mutual from one-way pinned TLS. -/
def securityMode (cfg : ClientConfig) : SecurityMode :=
  if cfg.tlsMode = "system" then .SYSTEM_TLS
  else if cfg.tlsMode = "insecure" then .INSECURE_TLS
  else if cfg.privateKeyPath ≠ "" ∨ cfg.serverPublicKey ≠ "" then
    if cfg.privateKeyPath ≠ "" ∧ cfg.serverPublicKey ≠ "" then .PINNED_MUTUAL_TLS
    else .PINNED_ONEWAY_TLS
  else .CLEARTEXT_H2C

/-- The request URL scheme chosen by `NewClient`
(transport/client.go lines 42-46). -/
def scheme (cfg : ClientConfig) : String :=
  if cfg.tlsMode = "system" ∨ cfg.tlsMode = "insecure" ∨
      cfg.privateKeyPath ≠ "" ∨ cfg.serverPublicKey ≠ "" then "https"
  else "http"

/-- Modelled from the spec: the selection rule of spec section 3, written
exactly as the spec states it (first match wins): `tls_mode="system"` gives
SYSTEM_TLS; `tls_mode="insecure"` gives INSECURE_TLS; `private_key_path`
and `server_public_key` both set gives PINNED_MUTUAL_TLS; exactly one of
those two set gives PINNED_ONEWAY_TLS; neither gives CLEARTEXT_H2C.
Used only as the specification side of the refinement claim C2. -/
def specSecurityMode (cfg : ClientConfig) : SecurityMode :=
  if cfg.tlsMode = "system" then .SYSTEM_TLS
  else if cfg.tlsMode = "insecure" then .INSECURE_TLS
  else if cfg.privateKeyPath ≠ "" ∧ cfg.serverPublicKey ≠ "" then .PINNED_MUTUAL_TLS
  else if (cfg.privateKeyPath ≠ "" ∧ cfg.serverPublicKey = "") ∨
      (cfg.privateKeyPath = "" ∧ cfg.serverPublicKey ≠ "") then .PINNED_ONEWAY_TLS
  else .CLEARTEXT_H2C

/-- The standard base64 alphabet of RFC 4648, the one used by Go's
`base64.StdEncoding`. -/
def base64Alphabet : List Char :=
  "ABCDEFGHIJKLMNOPQRSTUVWXYZabcdefghijklmnopqrstuvwxyz0123456789+/".data

/-- The base64 digit for a 6-bit value. -/
def base64Char (n : Nat) : Char := base64Alphabet.getD n 'A'

/-- `base64.StdEncoding.EncodeToString`: standard alphabet with `=` padding,
over a list of bytes (naturals below 256). -/
def base64Encode : List Nat → String
  | [] => ""
  | [a] => String.mk [base64Char (a / 4), base64Char (a % 4 * 16), '=', '=']
  | [a, b] => String.mk [base64Char (a / 4), base64Char (a % 4 * 16 + b / 16),
      base64Char (b % 16 * 4), '=']
  | a :: b :: c :: rest =>
    String.mk [base64Char (a / 4), base64Char (a % 4 * 16 + b / 16),
      base64Char (b % 16 * 4 + c / 64), base64Char (c % 64)] ++ base64Encode rest

/-- A parsed certificate's subject public key as the verifier sees it:
either an Ed25519 key (its bytes) or a key of any other algorithm (the
verifier only performs the type assertion `pub.(ed25519.PublicKey)`). -/
inductive GoPublicKey where
  | ed25519 (key : List Nat)
  | other
deriving DecidableEq

/-- The part of a parsed `x509.Certificate` that the verifier reads. -/
structure GoCertificate where
  publicKey : GoPublicKey
deriving DecidableEq

/-- The warning line logged when `server_public_key` is unset
(transport/client.go line 204). -/
def mitmWarning : String :=
  "WARNING: server_public_key NOT SET. Connection vulnerable to MITM."

/-- The `VerifyPeerCertificate` callback installed by `createHTTPClient` in
the pinned branch (transport/client.go lines 202-227).  `parse` stands for
the external `x509.ParseCertificate`.  The first component of the result is
the callback's return value (`.ok ()` for `nil`); the second is the list of
log lines it emits. -/
def verifyPeerCertificate (parse : List Nat → Except String GoCertificate)
    (serverPublicKey : String) (rawCerts : List (List Nat)) :
    Except String Unit × List String :=
  if serverPublicKey = "" then (.ok (), [mitmWarning])
  else
    match rawCerts with
    | [] => (.error "no server certificate presented", [])
    | raw :: _ =>
      match parse raw with
      | .error e => (.error ("failed to parse server cert: " ++ e), [])
      | .ok leaf =>
        match leaf.publicKey with
        | .other => (.error "server key is not Ed25519", [])
        | .ed25519 pubBytes =>
          let pubStr := base64Encode pubBytes
          if pubStr ≠ serverPublicKey then
            (.error ("server key verification failed. Expected " ++
              serverPublicKey ++ ", Got " ++ pubStr), [])
          else (.ok (), [])

/-- Splits a character list at its last colon: `some (host, port)` when a
colon exists, `host` being the characters before the last colon and `port`
those after it. -/
def splitAtLastColon : List Char → Option (List Char × List Char)
  | [] => none
  | c :: rest =>
    match splitAtLastColon rest with
    | some (h, p) => some (c :: h, p)
    | none => if c = ':' then some ([], rest) else none

/-- `net.SplitHostPort`: `none` models the error cases (no colon, stray
brackets, or an unbracketed host containing a colon); for a bracketed host
`[h]:p` the brackets are stripped. -/
def splitHostPort (addr : String) : Option (String × String) :=
  match splitAtLastColon addr.data with
  | none => none
  | some (h, p) =>
    if h.head? = some '[' ∧ h.getLast? = some ']' then
      some (String.mk ((h.drop 1).dropLast), String.mk p)
    else if ':' ∈ h ∨ '[' ∈ h ∨ ']' ∈ h ∨ '[' ∈ p ∨ ']' ∈ p then none
    else some (String.mk h, String.mk p)

/-- The Go idiom `host, _, _ := net.SplitHostPort(addr)` that ignores the
error: the host portion, or the empty string when the split fails.  Used by
`dialWithFingerprint` (line 82) and `createHTTPClient` (line 148). -/
def splitHostOrEmpty (addr : String) : String :=
  match splitHostPort addr with
  | some (h, _) => h
  | none => ""

/-- The hostname `crypto/tls.DialWithDialer` derives from `addr` for SNI
when the config carries no server name: the prefix of `addr` up to its last
colon (all of `addr` when it has no colon). -/
def tlsDialHostname (addr : String) : String :=
  match splitAtLastColon addr.data with
  | none => addr
  | some (h, _) => String.mk h

/-- `dialTarget` in `createHTTPClient` (lines 140-145): the address handed
to the TCP dial — `DialAddr` when set, else `RemoteAddr`. -/
def dialTarget (cfg : ClientConfig) : String :=
  if cfg.dialAddr ≠ "" then cfg.dialAddr else cfg.remoteAddr

/-- `sniHost` in `createHTTPClient` (lines 147-151): the host portion of
`RemoteAddr`, falling back to the whole of `RemoteAddr` when the split
yields nothing. -/
def sniHost (cfg : ClientConfig) : String :=
  let h := splitHostOrEmpty cfg.remoteAddr
  if h = "" then cfg.remoteAddr else h

/-- The `ServerName` of the `tls.Config` each `createHTTPClient` branch
hands to `dialWithFingerprint`: the SYSTEM and INSECURE branches set it to
`sniHost` (lines 157 and 171); the pinned branch's config sets no server
name (lines 199-228); the cleartext branch performs no TLS. -/
def modeServerName (cfg : ClientConfig) : String :=
  match securityMode cfg with
  | .SYSTEM_TLS => sniHost cfg
  | .INSECURE_TLS => sniHost cfg
  | _ => ""

/-- What travels in the ClientHello's server-name extension, if anything. -/
inductive WireSNI where
  | noTLS
  | sni (name : String)
deriving DecidableEq

/-- The server name actually sent on the wire.  On the standard-TLS path
(`fingerprint = ""`, so `dialWithFingerprint` calls `tls.Dial`) it is the
config's server name when set, else the dialed address up to its last
colon; on the uTLS path it is the config's server name when set, else the
host portion of the dialed address (lines 70-92).  The cleartext branch
performs no TLS handshake at all. -/
def wireSNI (cfg : ClientConfig) : WireSNI :=
  if securityMode cfg = .CLEARTEXT_H2C then .noTLS
  else
    let sn := modeServerName cfg
    if cfg.fingerprint = "" then
      .sni (if sn ≠ "" then sn else tlsDialHostname (dialTarget cfg))
    else
      .sni (if sn ≠ "" then sn else splitHostOrEmpty (dialTarget cfg))

/-- The Host header of the request `Dial` builds: the authority of the URL
`scheme://RemoteAddr` (line 296). -/
def hostHeader (cfg : ClientConfig) : String := cfg.remoteAddr

/-- The address handed to the TCP connect: every branch of
`createHTTPClient` dials `dialTarget` (lines 160, 174, 233 and 247). -/
def tcpTarget (cfg : ClientConfig) : String := dialTarget cfg

/-- `5 * time.Second` in nanoseconds, the debounce window of `resetClient`. -/
def fiveSeconds : Nat := 5000000000

/-- `2 ^ 32`: the modulus of the `uint32` failure counter
(`atomic.AddUint32` wraps around). -/
def uint32Mod : Nat := 4294967296

/-- The mutable breaker state of a `Client`: the atomic `failureCount`, the
`lastReset` timestamp (nanoseconds), and the identity of the current
`httpClient` pointer, modelled as a generation number that `createHTTPClient`
bumps (two states have the same pointer exactly when the generations are
equal). -/
structure ClientState where
  failureCount : Nat
  lastReset : Nat
  clientGen : Nat
deriving DecidableEq

/-- `resetClient` (transport/client.go lines 360-389), at current time `now`
in nanoseconds: under the exclusive lock, if less than five seconds passed
since `lastReset`, store 0 into the failure counter and return; otherwise
close the old client's idle connections, build a fresh client (a new
generation), set `lastReset` to now, and store 0 into the failure counter. -/
def resetClient (s : ClientState) (now : Nat) : ClientState :=
  if now - s.lastReset < fiveSeconds then
    { s with failureCount := 0 }
  else
    { failureCount := 0, lastReset := now, clientGen := s.clientGen + 1 }

/-- The observable outcome of one `handleConnectionFailure` call: the new
breaker state, the incremented counter value that the call logs, and whether
the call invoked `resetClient`. -/
structure FailureResult where
  state : ClientState
  newCount : Nat
  invokedReset : Bool
deriving DecidableEq

/-- `handleConnectionFailure` (transport/client.go lines 350-357):
`newCount := atomic.AddUint32(&c.failureCount, 1)` (wrapping at `2^32`),
log the new value, and invoke `resetClient` when `newCount >= 3`. -/
def handleConnectionFailure (s : ClientState) (now : Nat) : FailureResult :=
  let newCount := (s.failureCount + 1) % uint32Mod
  let s1 := { s with failureCount := newCount }
  if 3 ≤ newCount then
    { state := resetClient s1 now, newCount := newCount, invokedReset := true }
  else
    { state := s1, newCount := newCount, invokedReset := false }

/-- The three arms of the `select` in `Dial`
(transport/client.go lines 323-346): a response arrived with some status,
the dispatch goroutine reported an error, or the 10-second timer fired. -/
inductive DialOutcome where
  | resp (status : Nat)
  | netErr
  | timeout
deriving DecidableEq

/-- What `Dial` returns to its caller; `bodyClosed` records whether the
rejection branch closed the response body before returning. -/
inductive DialResult where
  | stream
  | serverRejected (status : Nat) (bodyClosed : Bool)
  | failed
deriving DecidableEq

/-- The state-and-result effect of the `select` at the end of `Dial`
(transport/client.go lines 323-346).  On a response: store 0 into the
failure counter, then reject (closing the body) when the status is not 200,
else return the stream.  On a dispatch error or on the 10-second timeout:
run `handleConnectionFailure`. -/
def dialStep (s : ClientState) (now : Nat) (o : DialOutcome) :
    ClientState × DialResult :=
  match o with
  | .resp status =>
    let s1 := { s with failureCount := 0 }
    if status ≠ 200 then (s1, .serverRejected status true)
    else (s1, .stream)
  | .netErr => ((handleConnectionFailure s now).state, .failed)
  | .timeout => ((handleConnectionFailure s now).state, .failed)

/-- The closeable halves of the `Stream` returned by `Dial`: the response
body (its `Closer`) and the pipe write half (its `Writer`). -/
structure StreamState where
  bodyClosed : Bool
  pipeClosed : Bool
deriving DecidableEq

/-- `resp.Body.Close`, per its contract: marks the body closed; closing an
already-closed body is a no-op that reports no error. -/
def closeRespBody (st : StreamState) : StreamState × Option String :=
  ({ st with bodyClosed := true }, none)

/-- `io.PipeWriter.Close`: marks the write half closed and always returns
nil, on repeated closes too. -/
def closePipeWriter (st : StreamState) : StreamState × Option String :=
  ({ st with pipeClosed := true }, none)

/-- The `Writer` of the stream built by `Dial` is the pipe write half `pw`
(line 333), a `*io.PipeWriter`, which implements `io.Closer`; the type
assertion in `Stream.Close` therefore succeeds. -/
def writerHasCloser : Bool := true

/-- `Stream.Close` (transport/client.go lines 398-404): close the `Closer`
(the response body), then close the `Writer` when it implements
`io.Closer`, and return nil unconditionally. -/
def streamClose (st : StreamState) : StreamState × Option String :=
  let st1 := (closeRespBody st).1
  let st2 := if writerHasCloser then (closePipeWriter st1).1 else st1
  (st2, none)

/-- `n` successive calls of `Stream.Close` on the same stream. -/
def streamCloseIter : Nat → StreamState → StreamState
  | 0, st => st
  | n + 1, st => streamCloseIter n (streamClose st).1

/-- The uTLS ClientHello identifiers `pickHelloID` can return. -/
inductive ClientHelloID where
  | chrome
  | firefox
  | safari
  | randomized
deriving DecidableEq

/-- `pickHelloID` (transport/client.go lines 120-131): "firefox", "safari"
and "random" map to the matching uTLS hello; every other value — "chrome"
included — falls to the default branch, the Chrome hello. -/
def pickHelloID (fp : String) : ClientHelloID :=
  if fp = "firefox" then .firefox
  else if fp = "safari" then .safari
  else if fp = "random" then .randomized
  else .chrome

/-- Which TLS client `dialWithFingerprint` uses. -/
inductive DialPath where
  | standardTLS
  | utlsClient (id : ClientHelloID)
deriving DecidableEq

/-- `dialWithFingerprint` (lines 70-97): the standard Go TLS client when
the fingerprint is empty, else a uTLS client with the hello chosen by
`pickHelloID`. -/
def dialPath (fp : String) : DialPath :=
  if fp = "" then .standardTLS else .utlsClient (pickHelloID fp)

/-- The client-certificate setup of the pinned branch of `createHTTPClient`
(lines 184-197).  `loadPrivateKey` and `generateTLSCertificate` stand for
the external `crypto.LoadPrivateKey` and `crypto.GenerateTLSCertificate`,
with `K` and `C` their abstract key and certificate types.  The result is
the certificate list placed in the TLS config, together with the error
lines logged; the function is total — a failure is logged, never
propagated, and the transport is built afterwards regardless. -/
def setupClientCerts {K C : Type} (privateKeyPath : String)
    (loadPrivateKey : String → Except String K)
    (generateTLSCertificate : K → Except String C) :
    List C × List String :=
  if privateKeyPath = "" then ([], [])
  else
    match loadPrivateKey privateKeyPath with
    | .error e => ([], ["Failed to load private key: " ++ e])
    | .ok priv =>
      match generateTLSCertificate priv with
      | .error e => ([], ["Failed to generate TLS cert: " ++ e])
      | .ok cert => ([cert], [])

end Phoenix

namespace Phoenix

/-- Helper: from the first call on, `Stream.Close` leaves the stream with
both halves closed. -/
theorem streamCloseIter_succ (n : Nat) (st : StreamState) :
    streamCloseIter (n + 1) st = ⟨true, true⟩ := by
  induction n generalizing st with
  | zero => rfl
  | succ k ih => exact ih _

/-- C2: the derived security mode is a pure function of the options, chosen
by the spec's first-match rule, and the URL scheme is "http" exactly in
CLEARTEXT_H2C and "https" in every other mode. -/
theorem securityMode_eq_spec_and_scheme (cfg : ClientConfig) :
    securityMode cfg = specSecurityMode cfg ∧
    (scheme cfg = "http" ↔ securityMode cfg = .CLEARTEXT_H2C) ∧
    (scheme cfg = "https" ↔ securityMode cfg ≠ .CLEARTEXT_H2C) := by
  by_cases h1 : cfg.tlsMode = "system" <;>
    by_cases h2 : cfg.tlsMode = "insecure" <;>
      by_cases h3 : cfg.privateKeyPath = "" <;>
        by_cases h4 : cfg.serverPublicKey = "" <;>
          simp [securityMode, specSecurityMode, scheme, h1, h2, h3, h4]

/-- C1, counterexample: with `server_public_key = "XYZW"` and a peer chain
whose leaf certificate fails to parse, the verifier fails with the message
"failed to parse server cert: x509: malformed certificate", which does not
contain the expected base64 string (and names no actual key string at all),
refuting the part of the claim that says a parse failure produces a message
containing both the expected and the actual base64 strings. -/
theorem verifyPeerCertificate_parse_failure_counterexample :
    (verifyPeerCertificate (fun _ => .error "x509: malformed certificate")
        "XYZW" [[48, 130]]).1 =
      .error "failed to parse server cert: x509: malformed certificate" ∧
    ¬ ("XYZW".data <:+:
        "failed to parse server cert: x509: malformed certificate".data) :=
  ⟨rfl, by decide⟩

/-- C1 (amended): in a pinned mode with `server_public_key` set, the verifier
parses the leaf certificate, rejects any non-Ed25519 subject public key,
base64-encodes an Ed25519 key with the standard alphabet and padding, and
accepts exactly when that string equals `server_public_key`; on mismatch it
fails with a message containing both the expected and the actual base64
strings, while on parse failure it fails with a message naming the parse
error, which need not contain those strings. -/
theorem verifyPeerCertificate_pinned
    (parse : List Nat → Except String GoCertificate)
    (spk : String) (raw : List Nat) (rest : List (List Nat)) (hspk : spk ≠ "") :
    (∀ e, parse raw = .error e →
      (verifyPeerCertificate parse spk (raw :: rest)).1 =
        .error ("failed to parse server cert: " ++ e)) ∧
    (∀ leaf, parse raw = .ok leaf → leaf.publicKey = .other →
      (verifyPeerCertificate parse spk (raw :: rest)).1 =
        .error "server key is not Ed25519") ∧
    (∀ leaf pub, parse raw = .ok leaf → leaf.publicKey = .ed25519 pub →
      ((verifyPeerCertificate parse spk (raw :: rest)).1 = .ok () ↔
        base64Encode pub = spk)) ∧
    (∀ leaf pub, parse raw = .ok leaf → leaf.publicKey = .ed25519 pub →
      base64Encode pub ≠ spk →
      ∃ msg, (verifyPeerCertificate parse spk (raw :: rest)).1 = .error msg ∧
        spk.data <:+: msg.data ∧ (base64Encode pub).data <:+: msg.data) := by
  refine ⟨?_, ?_, ?_, ?_⟩
  · intro e hparse
    simp [verifyPeerCertificate, hspk, hparse]
  · intro leaf hparse hpk
    simp [verifyPeerCertificate, hspk, hparse, hpk]
  · intro leaf pub hparse hpk
    by_cases heq : base64Encode pub = spk <;>
      simp [verifyPeerCertificate, hspk, hparse, hpk, heq]
  · intro leaf pub hparse hpk hne
    refine ⟨"server key verification failed. Expected " ++ spk ++ ", Got " ++
      base64Encode pub, ?_, ?_, ?_⟩
    · simp [verifyPeerCertificate, hspk, hparse, hpk, hne]
    · exact ⟨"server key verification failed. Expected ".data,
        (", Got " ++ base64Encode pub).data, by simp [String.data_append]⟩
    · exact ⟨("server key verification failed. Expected " ++ spk ++ ", Got ").data,
        [], by simp [String.data_append]⟩

/-- C1 witness: at the pin "TWFu" (the standard base64 of the bytes
[77, 97, 110]), the verifier accepts a leaf whose Ed25519 subject key is
exactly those bytes. -/
theorem verifyPeerCertificate_pinned_witness :
    (verifyPeerCertificate (fun _ => .ok ⟨.ed25519 [77, 97, 110]⟩)
        "TWFu" [[48]]).1 = .ok () :=
  ((verifyPeerCertificate_pinned (fun _ => .ok ⟨.ed25519 [77, 97, 110]⟩)
      "TWFu" [48] [] (by decide)).2.2.1 ⟨.ed25519 [77, 97, 110]⟩
      [77, 97, 110] rfl rfl).mpr (by decide)

/-- C3, counterexample: in pinned one-way mode with
`dial_addr = "1.2.3.4:443"` and `remote_addr = "example.com:443"`, the SNI
on the wire is "1.2.3.4" — the host portion of `dial_addr`, not of
`remote_addr` — because the pinned branch's TLS config specifies no server
name, so the dialer falls back to the host of the address it dials. -/
theorem sni_dial_split_counterexample :
    securityMode ⟨"example.com:443", "1.2.3.4:443", "", "", "K", "", ""⟩ =
      .PINNED_ONEWAY_TLS ∧
    sniHost ⟨"example.com:443", "1.2.3.4:443", "", "", "K", "", ""⟩ =
      "example.com" ∧
    wireSNI ⟨"example.com:443", "1.2.3.4:443", "", "", "K", "", ""⟩ =
      .sni "1.2.3.4" ∧
    wireSNI ⟨"example.com:443", "1.2.3.4:443", "", "", "K", "", ""⟩ ≠
      .sni "example.com" := by decide

/-- C3 (amended): when `dial_addr` is set, the TCP connection targets
`dial_addr` and the Host header carries `remote_addr` in every mode; the
TLS SNI carries the host portion of `remote_addr` in SYSTEM_TLS and
INSECURE_TLS, but in the two pinned modes it carries the host portion of
the dialed address (`dial_addr`), because the pinned TLS config specifies
no server name. -/
theorem sni_dial_split (cfg : ClientConfig) (hd : cfg.dialAddr ≠ "")
    (hr : cfg.remoteAddr ≠ "") :
    tcpTarget cfg = cfg.dialAddr ∧
    hostHeader cfg = cfg.remoteAddr ∧
    ((securityMode cfg = .SYSTEM_TLS ∨ securityMode cfg = .INSECURE_TLS) →
      wireSNI cfg = .sni (sniHost cfg)) ∧
    ((securityMode cfg = .PINNED_ONEWAY_TLS ∨
        securityMode cfg = .PINNED_MUTUAL_TLS) →
      ∀ host, splitHostOrEmpty cfg.dialAddr = host →
        tlsDialHostname cfg.dialAddr = host →
        wireSNI cfg = .sni host) := by
  have hsni : sniHost cfg ≠ "" := by
    by_cases h0 : splitHostOrEmpty cfg.remoteAddr = "" <;>
      simp [sniHost, h0, hr]
  refine ⟨by simp [tcpTarget, dialTarget, hd], rfl, ?_, ?_⟩
  · intro hmode
    have hsn : modeServerName cfg = sniHost cfg := by
      rcases hmode with h | h <;> simp [modeServerName, h]
    have hnc : securityMode cfg ≠ .CLEARTEXT_H2C := by
      rcases hmode with h | h <;> simp [h]
    by_cases hfp : cfg.fingerprint = "" <;>
      simp [wireSNI, hnc, hsn, hfp, hsni]
  · intro hmode host hsplit htls
    have hsn : modeServerName cfg = "" := by
      rcases hmode with h | h <;> simp [modeServerName, h]
    have hnc : securityMode cfg ≠ .CLEARTEXT_H2C := by
      rcases hmode with h | h <;> simp [h]
    have htarget : dialTarget cfg = cfg.dialAddr := by
      simp [dialTarget, hd]
    by_cases hfp : cfg.fingerprint = "" <;>
      simp [wireSNI, hnc, hsn, hfp, htarget, hsplit, htls]

/-- C3 witness: under `tls_mode = "system"` with a set `dial_addr` the SNI
is the host of `remote_addr`, while in pinned one-way mode the SNI is the
host of `dial_addr`. -/
theorem sni_dial_split_witness :
    wireSNI ⟨"example.com:443", "1.2.3.4:443", "", "", "", "system", ""⟩ =
      .sni (sniHost ⟨"example.com:443", "1.2.3.4:443", "", "", "", "system", ""⟩) ∧
    wireSNI ⟨"example.com:443", "1.2.3.4:443", "", "", "Q", "", "chrome"⟩ =
      .sni "1.2.3.4" :=
  ⟨(sni_dial_split ⟨"example.com:443", "1.2.3.4:443", "", "", "", "system", ""⟩
      (by decide) (by decide)).2.2.1 (Or.inl (by decide)),
    (sni_dial_split ⟨"example.com:443", "1.2.3.4:443", "", "", "Q", "", "chrome"⟩
      (by decide) (by decide)).2.2.2 (Or.inl (by decide)) "1.2.3.4"
      (by decide) (by decide)⟩

/-- C4: every Dial failure of kind network error or timeout runs
`handleConnectionFailure`, which increments the consecutive-failure counter
by one (below the `uint32` wrap bound) and invokes `resetClient` exactly
when the incremented value is at least 3; every successful dial (a response
with status 200) stores 0 into the counter. -/
theorem breaker_failure_and_success (s : ClientState) (now : Nat)
    (h : s.failureCount + 1 < uint32Mod) :
    ((handleConnectionFailure s now).newCount = s.failureCount + 1 ∧
      ((handleConnectionFailure s now).invokedReset = true ↔
        3 ≤ s.failureCount + 1) ∧
      (dialStep s now .netErr).1 = (handleConnectionFailure s now).state ∧
      (dialStep s now .timeout).1 = (handleConnectionFailure s now).state) ∧
    (dialStep s now (.resp 200)).1.failureCount = 0 := by
  have hmod : (s.failureCount + 1) % uint32Mod = s.failureCount + 1 :=
    Nat.mod_eq_of_lt h
  refine ⟨⟨?_, ?_, rfl, rfl⟩, rfl⟩
  · by_cases h3 : 3 ≤ s.failureCount + 1 <;>
      simp [handleConnectionFailure, hmod, h3]
  · by_cases h3 : 3 ≤ s.failureCount + 1 <;>
      simp [handleConnectionFailure, hmod, h3]

/-- C4 witness: from a state with counter 2, a network-error outcome logs
the value 3, invokes the reset, and a 200 response stores 0. -/
theorem breaker_failure_and_success_witness :
    ((handleConnectionFailure ⟨2, 0, 7⟩ 0).newCount =
        (⟨2, 0, 7⟩ : ClientState).failureCount + 1 ∧
      ((handleConnectionFailure ⟨2, 0, 7⟩ 0).invokedReset = true ↔
        3 ≤ (⟨2, 0, 7⟩ : ClientState).failureCount + 1) ∧
      (dialStep ⟨2, 0, 7⟩ 0 .netErr).1 =
        (handleConnectionFailure ⟨2, 0, 7⟩ 0).state ∧
      (dialStep ⟨2, 0, 7⟩ 0 .timeout).1 =
        (handleConnectionFailure ⟨2, 0, 7⟩ 0).state) ∧
    (dialStep ⟨2, 0, 7⟩ 0 (.resp 200)).1.failureCount = 0 :=
  breaker_failure_and_success ⟨2, 0, 7⟩ 0 (by decide)

/-- C5: a Reset invoked less than five seconds after the last completed
rebuild stores 0 into the failure counter and returns without rebuilding —
the client generation and the reset timestamp are unchanged; consequently,
when a Reset rebuilds at time t1, a second Reset trigger at t2 less than
five seconds later is debounced, so the two triggers produce exactly one
rebuild. -/
theorem resetClient_debounce (s : ClientState) (t1 t2 : Nat) :
    (t1 - s.lastReset < fiveSeconds →
      resetClient s t1 = { s with failureCount := 0 }) ∧
    (fiveSeconds ≤ t1 - s.lastReset → t2 - t1 < fiveSeconds →
      (resetClient s t1).clientGen = s.clientGen + 1 ∧
      resetClient (resetClient s t1) t2 =
        { resetClient s t1 with failureCount := 0 } ∧
      (resetClient (resetClient s t1) t2).clientGen = s.clientGen + 1) := by
  constructor
  · intro hlt
    simp [resetClient, hlt]
  · intro hge hlt
    have h1 : ¬ (t1 - s.lastReset < fiveSeconds) := not_lt.mpr hge
    have hfirst : resetClient s t1 =
        { failureCount := 0, lastReset := t1, clientGen := s.clientGen + 1 } := by
      simp [resetClient, h1]
    refine ⟨by rw [hfirst], ?_, ?_⟩ <;>
      rw [hfirst] <;> simp [resetClient, hlt]

/-- C5 witness: a Reset 11 ns after a rebuild leaves the state intact but
for the counter, and a rebuild at t1 = 5 s followed by a trigger 1 ns later
bumps the generation exactly once. -/
theorem resetClient_debounce_witness :
    resetClient ⟨3, 10, 4⟩ 11 = { (⟨3, 10, 4⟩ : ClientState) with failureCount := 0 } ∧
    ((resetClient ⟨3, 0, 4⟩ fiveSeconds).clientGen =
        (⟨3, 0, 4⟩ : ClientState).clientGen + 1 ∧
      resetClient (resetClient ⟨3, 0, 4⟩ fiveSeconds) (fiveSeconds + 1) =
        { resetClient ⟨3, 0, 4⟩ fiveSeconds with failureCount := 0 } ∧
      (resetClient (resetClient ⟨3, 0, 4⟩ fiveSeconds) (fiveSeconds + 1)).clientGen =
        (⟨3, 0, 4⟩ : ClientState).clientGen + 1) :=
  ⟨(resetClient_debounce ⟨3, 10, 4⟩ 11 0).1 (by decide),
    (resetClient_debounce ⟨3, 0, 4⟩ fiveSeconds (fiveSeconds + 1)).2
      (by decide) (by decide)⟩

/-- C6, counterexample: a response with status 401 arriving while the
failure counter is 2 leaves the counter at 0, not at 2: `Dial` stores 0
into the counter on any arriving response before checking the status, so
the counter is not left unchanged as the claim states. -/
theorem dial_reject_counter_counterexample :
    (dialStep ⟨2, 0, 0⟩ 0 (.resp 401)).2 = .serverRejected 401 true ∧
    (dialStep ⟨2, 0, 0⟩ 0 (.resp 401)).1.failureCount = 0 ∧
    (⟨2, 0, 0⟩ : ClientState).failureCount = 2 := by decide

/-- C6 (amended): for every Dial whose response headers arrive with a status
other than 200, Dial closes the response body and fails with the
server-rejected error carrying that status; the failure counter is stored
to 0 rather than incremented, so the rejection does not count toward the
circuit breaker and triggers no reset. -/
theorem dial_reject (s : ClientState) (now status : Nat) (h : status ≠ 200) :
    dialStep s now (.resp status) =
      ({ s with failureCount := 0 }, .serverRejected status true) := by
  simp [dialStep, h]

/-- C6 witness: a 401 response from counter 2 yields the rejection result
with the body closed and the counter stored to 0. -/
theorem dial_reject_witness :
    dialStep ⟨2, 5, 9⟩ 0 (.resp 401) =
      ({ (⟨2, 5, 9⟩ : ClientState) with failureCount := 0 },
        .serverRejected 401 true) :=
  dial_reject ⟨2, 5, 9⟩ 0 401 (by decide)

/-- C7: when `server_public_key` is empty (the pinned branch entered with
only `private_key_path` set), the verifier accepts every peer certificate
chain — including the empty chain — and logs the loud warning that the
connection is vulnerable to machine-in-the-middle attacks. -/
theorem verifyPeerCertificate_no_pin
    (parse : List Nat → Except String GoCertificate)
    (rawCerts : List (List Nat)) :
    verifyPeerCertificate parse "" rawCerts = (.ok (), [mitmWarning]) := rfl

/-- C8: `Stream.Close` closes the response-body half and — the pipe write
half implementing a close capability — closes it too; calling Close n times
for any n ≥ 1 leaves the stream in the same state as calling it once, and
every call, the second and later ones included, returns nil. -/
theorem streamClose_idempotent (st : StreamState) (n : Nat) (h : 1 ≤ n) :
    (streamClose st).1.bodyClosed = true ∧
    (streamClose st).1.pipeClosed = true ∧
    streamCloseIter n st = streamCloseIter 1 st ∧
    (∀ m, (streamClose (streamCloseIter m st)).2 = none) := by
  obtain ⟨m, rfl⟩ : ∃ m, n = m + 1 := ⟨n - 1, (Nat.succ_pred_eq_of_pos h).symm⟩
  exact ⟨rfl, rfl, by rw [streamCloseIter_succ, streamCloseIter_succ], fun _ => rfl⟩

/-- C8 witness: closing a fresh stream three times equals closing it once,
with both halves closed and no error from any call. -/
theorem streamClose_idempotent_witness :
    (streamClose ⟨false, false⟩).1.bodyClosed = true ∧
    (streamClose ⟨false, false⟩).1.pipeClosed = true ∧
    streamCloseIter 3 ⟨false, false⟩ = streamCloseIter 1 ⟨false, false⟩ ∧
    (∀ m, (streamClose (streamCloseIter m ⟨false, false⟩)).2 = none) :=
  streamClose_idempotent ⟨false, false⟩ 3 (by decide)

/-- C9: every non-empty fingerprint value other than "firefox", "safari"
and "random" — unrecognized strings such as "edge" included — selects the
Chrome ClientHello, and the standard non-spoofed TLS client is selected
exactly for the empty fingerprint. -/
theorem pickHelloID_default (fp : String) :
    (fp ≠ "" → fp ≠ "firefox" → fp ≠ "safari" → fp ≠ "random" →
      dialPath fp = .utlsClient .chrome) ∧
    (dialPath fp = .standardTLS ↔ fp = "") := by
  constructor
  · intro h0 h1 h2 h3
    simp [dialPath, pickHelloID, h0, h1, h2, h3]
  · by_cases hg : fp = "" <;> simp [dialPath, pickHelloID, hg]

/-- C9 witness: the unrecognized fingerprint "edge" selects the Chrome
hello over uTLS and does not select the standard client. -/
theorem pickHelloID_default_witness :
    dialPath "edge" = .utlsClient .chrome ∧
    (dialPath "edge" = .standardTLS ↔ "edge" = "") :=
  ⟨(pickHelloID_default "edge").1 (by decide) (by decide) (by decide) (by decide),
    (pickHelloID_default "edge").2⟩

/-- C10: in a pinned mode, when loading the private key from
`private_key_path` fails, or generating the TLS certificate from it fails,
client construction completes anyway: the error is logged and the TLS
config receives an empty client-certificate list, so subsequent dials
proceed as one-way TLS presenting no client certificate. -/
theorem setupClientCerts_failure {K C : Type} (path : String)
    (loadPrivateKey : String → Except String K)
    (generateTLSCertificate : K → Except String C) (hp : path ≠ "") :
    (∀ e, loadPrivateKey path = .error e →
      setupClientCerts path loadPrivateKey generateTLSCertificate =
        ([], ["Failed to load private key: " ++ e])) ∧
    (∀ k e, loadPrivateKey path = .ok k →
      generateTLSCertificate k = .error e →
      setupClientCerts path loadPrivateKey generateTLSCertificate =
        ([], ["Failed to generate TLS cert: " ++ e])) := by
  constructor
  · intro e he
    simp [setupClientCerts, hp, he]
  · intro k e hk hc
    simp [setupClientCerts, hp, hk, hc]

/-- C10 witness: a missing key file yields an empty certificate list and
the logged load error. -/
theorem setupClientCerts_failure_witness :
    setupClientCerts "client.key"
        (fun _ => (.error "no such file" : Except String Unit))
        (fun _ => (.ok () : Except String Unit)) =
      ([], ["Failed to load private key: " ++ "no such file"]) :=
  (setupClientCerts_failure "client.key"
    (fun _ => (.error "no such file" : Except String Unit))
    (fun _ => (.ok () : Except String Unit)) (by decide)).1 "no such file" rfl

end Phoenix
